import Mathlib

/-!
Shallow embedding of `QTFileTransfer.c` (asynchronous remote-to-local file
transfer sample).

The C file keeps its whole transfer state in file-scope globals; we embed
them as the structure `GState`.  Pointer-valued globals (`gDataBuffer`,
`gDataReader`, `gDataWriter` and the two completion-routine descriptors) are
modelled by `Bool`: `true` means the pointer is non-NULL.  The `long`
counters are modelled by `Int`; all quantities relevant to the claims are
bounded by the remote file size (a `long` obtained from `DataHGetFileSize`),
so 32-bit wrap-around never intervenes under the claims' hypotheses.

Each completion routine is embedded as a pure function from the global state
and its C parameters to the new global state together with the I/O request it
schedules (the `DataHReadAsync` / `DataHWrite` call it issues, if any).
`runTransfer` then drives the pipeline under the environment assumed by the
spec's chunking claims: every read and every write completes and reports the
request's refCon back to its completion routine, exactly as the data-handler
API does.
-/

namespace QTFileTransfer

/-- Mac OS success status code `noErr`. -/
def noErr : Int := 0

/-- Mac OS status code `badComponentType` (-2005), the value `myErr` is
initialised to in `QTFileTrans_CopyRemoteFileToLocalFile`. -/
def badComponentType : Int := -2005

/-- Mac OS status code `fnfErr` (-43), file not found. -/
def fnfErr : Int := -43

/-- Modelled from the spec: `kDataBufferSize` is defined in
`QTFileTransfer.h`, which is not under `src/`; the spec's sample scenario
fixes the buffer capacity at 4096 bytes.  The pipeline functions below take
the capacity as an explicit parameter, and this constant is used for the
concrete scenarios. -/
def kDataBufferSize : Int := 4096

/-- The file-scope globals of `QTFileTransfer.c`.  Pointer globals are
`Bool` (`true` = non-NULL). -/
structure GState where
  gDataBuffer : Bool
  gDataReader : Bool
  gDataWriter : Bool
  gReadDataHCompletionUPP : Bool
  gWriteDataHCompletionUPP : Bool
  gBytesToTransfer : Int
  gBytesTransferred : Int
  gDoneTransferring : Bool
deriving DecidableEq, Repr

/-- The file-scope initial values of the globals (all pointers NULL, both
counters 0, `gDoneTransferring = false`). -/
def initGlobals : GState :=
  { gDataBuffer := false
    gDataReader := false
    gDataWriter := false
    gReadDataHCompletionUPP := false
    gWriteDataHCompletionUPP := false
    gBytesToTransfer := 0
    gBytesTransferred := 0
    gDoneTransferring := false }

/-- Global state right after a successful setup for a remote file of `S`
bytes: both data handlers open, buffer allocated, both UPPs created,
`gBytesToTransfer = S`, `gBytesTransferred = 0`, `gDoneTransferring = false`
(lines 188-224 of the source). -/
def startedState (S : Int) : GState :=
  { gDataBuffer := true
    gDataReader := true
    gDataWriter := true
    gReadDataHCompletionUPP := true
    gWriteDataHCompletionUPP := true
    gBytesToTransfer := S
    gBytesTransferred := 0
    gDoneTransferring := false }

/-- How many times each resource-releasing call was made during one
invocation of `QTFileTrans_CloseDownHandlers`:
`CloseComponent(gDataReader)`, `CloseComponent(gDataWriter)`,
`DisposePtr(gDataBuffer)`, `DisposeDataHCompletionUPP` on each UPP. -/
structure Releases where
  readerCloses : Nat
  writerCloses : Nat
  bufferDisposes : Nat
  readUPPDisposes : Nat
  writeUPPDisposes : Nat
deriving DecidableEq, Repr

/-- The all-zero release record (no releasing call made). -/
def emptyReleases : Releases :=
  { readerCloses := 0, writerCloses := 0, bufferDisposes := 0
    readUPPDisposes := 0, writeUPPDisposes := 0 }

/-- Embedding of `QTFileTrans_CloseDownHandlers` (lines 316-340): closes the
reader if non-NULL and nulls it, likewise the writer; then disposes the data
buffer if non-NULL and each routine descriptor if non-NULL — without nulling
those three pointers.  Returns the new globals and the count of releasing
calls made. -/
def QTFileTrans_CloseDownHandlers (s : GState) : GState × Releases :=
  let readerPair :=
    if s.gDataReader then ({ s with gDataReader := false }, 1) else (s, 0)
  let s1 := readerPair.1
  let writerPair :=
    if s1.gDataWriter then ({ s1 with gDataWriter := false }, 1) else (s1, 0)
  let s2 := writerPair.1
  let nBuf : Nat := if s2.gDataBuffer then 1 else 0
  let nReadUPP : Nat := if s2.gReadDataHCompletionUPP then 1 else 0
  let nWriteUPP : Nat := if s2.gWriteDataHCompletionUPP then 1 else 0
  (s2,
   { readerCloses := readerPair.2
     writerCloses := writerPair.2
     bufferDisposes := nBuf
     readUPPDisposes := nReadUPP
     writeUPPDisposes := nWriteUPP })

/-- One pass of the driving loop from the source's header comment (lines
41-50): `DataHTask` is called on each data handler that is non-NULL.
Returns the number of `DataHTask` calls issued. -/
def drivingStepTasks (s : GState) : Nat :=
  (if s.gDataReader then 1 else 0) + (if s.gDataWriter then 1 else 0)

/-- A `DataHReadAsync` request issued by the write-completion routine:
offset (`myWide`, with `hi = 0`), requested length, and the refCon passed to
the read completion routine (the source passes `myNumBytesToRead` for
both). -/
structure ReadReq where
  offset : Int
  length : Int
  refCon : Int
deriving DecidableEq, Repr

/-- A `DataHWrite` request issued by the read-completion routine: offset,
length, and the refCon passed on to the write completion routine. -/
structure WriteReq where
  offset : Int
  length : Int
  refCon : Int
deriving DecidableEq, Repr

/-- Embedding of `QTFileTrans_ReadDataCompletionProc` (lines 248-259): the
error parameter is unused (`#pragma unused(theErr)`); the routine mutates no
global and schedules `DataHWrite(gDataWriter, theRequest, gBytesTransferred,
theRefCon, gWriteDataHCompletionUPP, theRefCon)`. -/
def QTFileTrans_ReadDataCompletionProc (s : GState) (theRefCon theErr : Int) :
    GState × WriteReq :=
  (s, { offset := s.gBytesTransferred, length := theRefCon, refCon := theRefCon })

/-- Embedding of `QTFileTrans_WriteDataCompletionProc` (lines 271-306): the
error parameter is unused; the routine adds `theRefCon` to
`gBytesTransferred`; if data remains it schedules a `DataHReadAsync` of
`min(kDataBufferSize, remaining)` bytes at offset `gBytesTransferred`
(refCon = that length), otherwise it sets `gDoneTransferring = true` and
schedules nothing. -/
def QTFileTrans_WriteDataCompletionProc (kBufSize : Int) (s : GState)
    (theRefCon theErr : Int) : GState × Option ReadReq :=
  let s1 := { s with gBytesTransferred := s.gBytesTransferred + theRefCon }
  if s1.gBytesTransferred < s1.gBytesToTransfer then
    let myNumBytesToRead :=
      if s1.gBytesToTransfer - s1.gBytesTransferred > kBufSize then kBufSize
      else s1.gBytesToTransfer - s1.gBytesTransferred
    (s1, some { offset := s1.gBytesTransferred, length := myNumBytesToRead
                refCon := myNumBytesToRead })
  else
    ({ s1 with gDoneTransferring := true }, none)

/-- Result of driving one transfer: final globals, the `DataHReadAsync`
requests issued, the `DataHWrite` requests issued, and the global state
observed after each completion-routine invocation, in order. -/
structure RunResult where
  final : GState
  reads : List ReadReq
  writes : List WriteReq
  states : List GState
deriving DecidableEq, Repr

/-- Drive the pipeline from a write completion reporting `n` bytes (the
bootstrap call passes `n = 0`), under the environment assumed by the spec's
chunking claims: every scheduled read completes and its completion routine
receives the request's refCon, whose scheduled write then also completes and
reports its refCon.  `fuel` bounds the number of write completions
processed. -/
def runTransfer (kBufSize : Int) : Nat → GState → Int → RunResult
  | 0, s, _ => { final := s, reads := [], writes := [], states := [] }
  | fuel + 1, s, n =>
    match QTFileTrans_WriteDataCompletionProc kBufSize s n noErr with
    | (s1, none) => { final := s1, reads := [], writes := [], states := [s1] }
    | (s1, some req) =>
      let rwp := QTFileTrans_ReadDataCompletionProc s1 req.refCon noErr
      let rest := runTransfer kBufSize fuel rwp.1 rwp.2.refCon
      { final := rest.final
        reads := req :: rest.reads
        writes := rwp.2 :: rest.writes
        states := s1 :: rwp.1 :: rest.states }

/-- The chunk sequence named by the spec: `⌊r/C⌋` full chunks of the buffer
capacity `C` followed by the remainder `r mod C` when it is non-zero. -/
def chunkLengths (kBufSize r : Int) : List Int :=
  List.replicate (r / kBufSize).toNat kBufSize ++
    (if r % kBufSize = 0 then [] else [r % kBufSize])

/-- Results of the external calls `QTFileTrans_CopyRemoteFileToLocalFile`
makes, in program order: the URL length (`strlen`), whether each
`NewHandleClear` succeeds, the status of `FSpDelete` (which the source
discards), `FSpCreate`, `QTNewAlias`, whether each
`OpenComponent(GetDataHandler ...)` returns a non-NULL instance, the two
`DataHSetDataRef` statuses, `MemError` after `NewPtrClear`,
`DataHOpenForRead`, `DataHGetFileSize` (status and reported size), and
`DataHOpenForWrite`. -/
structure Env where
  urlLen : Int
  readerRefOk : Bool
  writerRefOk : Bool
  deleteErr : Int
  createErr : Int
  aliasErr : Int
  readerComponentOk : Bool
  writerComponentOk : Bool
  setReaderRefErr : Int
  setWriterRefErr : Int
  memErr : Int
  openReadErr : Int
  getFileSizeErr : Int
  remoteFileSize : Int
  openWriteErr : Int
deriving DecidableEq, Repr

/-- External calls made by `QTFileTrans_CopyRemoteFileToLocalFile`, recorded
in order. -/
inductive SetupEvent where
  | fspDelete
  | fspCreate
  | qtNewAlias
  | openReaderComponent
  | openWriterComponent
  | setReaderDataRef
  | setWriterDataRef
  | newPtrBuffer
  | dataHOpenForRead
  | dataHGetFileSize
  | dataHOpenForWrite
  | scheduleRead (req : ReadReq)
  | closeDown
deriving DecidableEq, Repr

/-- Outcome of one call to `QTFileTrans_CopyRemoteFileToLocalFile`: the
returned `OSErr`, the globals on return, the destination file after the call
(`none` = no file at the path), the read requests scheduled during the call,
whether `QTFileTrans_CloseDownHandlers` ran on the bail path (and the
releases it made), and the ordered trace of external calls. -/
structure CopyResult where
  err : Int
  state : GState
  destFile : Option (List Int)
  schedReads : List ReadReq
  teardownRan : Bool
  releases : Releases
  events : List SetupEvent
deriving DecidableEq, Repr

/-- The `bail:` label of `QTFileTrans_CopyRemoteFileToLocalFile` (lines
230-235): if `myErr` holds an error, close down the data handlers; then
return `myErr`. -/
def bailOut (myErr : Int) (s : GState) (fs : Option (List Int))
    (evs : List SetupEvent) (reads : List ReadReq) : CopyResult :=
  if myErr ≠ noErr then
    let closed := QTFileTrans_CloseDownHandlers s
    { err := myErr, state := closed.1, destFile := fs, schedReads := reads
      teardownRan := true, releases := closed.2
      events := evs ++ [SetupEvent.closeDown] }
  else
    { err := myErr, state := s, destFile := fs, schedReads := reads
      teardownRan := false, releases := emptyReleases, events := evs }

/-- Body of `QTFileTrans_CopyRemoteFileToLocalFile` from the `FSpDelete`
call (line 142) onward.  By this point the URL-length check and the reader
handle allocation have succeeded, and nothing before this point touches the
destination file, so the prior destination state is not an input: the
destination is removed by `FSpDelete` (whose status the source discards) and
recreated empty by `FSpCreate`.  The semantics of those two File Manager
calls (delete removes the file, create makes a fresh empty one) is the
spec's description of these external collaborators; everything else follows
the source line by line.  `myErr` holds `badComponentType` until the first
status-returning call overwrites it, so each `goto bail` lands in `bailOut`
with the *current* value of `myErr` — which is `noErr` when the failing step
is one of the two `OpenComponent` NULL checks (the preceding `QTNewAlias`
succeeded last). -/
def copyBodyFromDelete (kBufSize : Int) (env : Env) (s0 : GState) : CopyResult :=
  let fs1 : Option (List Int) := none
  let evs1 := [SetupEvent.fspDelete]
  if ¬ env.writerRefOk then bailOut badComponentType s0 fs1 evs1 [] else
  let evs2 := evs1 ++ [SetupEvent.fspCreate]
  if env.createErr ≠ noErr then bailOut env.createErr s0 fs1 evs2 [] else
  let fs2 : Option (List Int) := some []
  let evs3 := evs2 ++ [SetupEvent.qtNewAlias]
  if env.aliasErr ≠ noErr then bailOut env.aliasErr s0 fs2 evs3 [] else
  let s1 := { s0 with gDataReader := env.readerComponentOk }
  let evs4 := evs3 ++ [SetupEvent.openReaderComponent]
  if ¬ env.readerComponentOk then bailOut noErr s1 fs2 evs4 [] else
  let s2 := { s1 with gDataWriter := env.writerComponentOk }
  let evs5 := evs4 ++ [SetupEvent.openWriterComponent]
  if ¬ env.writerComponentOk then bailOut noErr s2 fs2 evs5 [] else
  let evs6 := evs5 ++ [SetupEvent.setReaderDataRef]
  if env.setReaderRefErr ≠ noErr then bailOut env.setReaderRefErr s2 fs2 evs6 [] else
  let evs7 := evs6 ++ [SetupEvent.setWriterDataRef]
  if env.setWriterRefErr ≠ noErr then bailOut env.setWriterRefErr s2 fs2 evs7 [] else
  let s3 := { s2 with gDataBuffer := env.memErr = noErr }
  let evs8 := evs7 ++ [SetupEvent.newPtrBuffer]
  if env.memErr ≠ noErr then bailOut env.memErr s3 fs2 evs8 [] else
  let evs9 := evs8 ++ [SetupEvent.dataHOpenForRead]
  if env.openReadErr ≠ noErr then bailOut env.openReadErr s3 fs2 evs9 [] else
  let evs10 := evs9 ++ [SetupEvent.dataHGetFileSize]
  if env.getFileSizeErr ≠ noErr then bailOut env.getFileSizeErr s3 fs2 evs10 [] else
  let s4 := { s3 with gBytesToTransfer := env.remoteFileSize }
  let evs11 := evs10 ++ [SetupEvent.dataHOpenForWrite]
  if env.openWriteErr ≠ noErr then bailOut env.openWriteErr s4 fs2 evs11 [] else
  let s5 := { s4 with gDoneTransferring := false
                      gBytesTransferred := 0
                      gReadDataHCompletionUPP := true
                      gWriteDataHCompletionUPP := true }
  let boot := QTFileTrans_WriteDataCompletionProc kBufSize s5 0 noErr
  match boot.2 with
  | some req =>
    bailOut noErr boot.1 fs2 (evs11 ++ [SetupEvent.scheduleRead req]) [req]
  | none => bailOut noErr boot.1 fs2 evs11 []

/-- Embedding of `QTFileTrans_CopyRemoteFileToLocalFile` (lines 108-236).
`env` supplies the results of the external calls, `s0` the globals on
entry, `fs0` the destination file before the call (`none` = absent).  The
two checks before `FSpDelete` — a zero `mySize` and a failed
`NewHandleClear` for the reader reference — bail with the initial `myErr`
value `badComponentType`; everything afterwards is `copyBodyFromDelete`. -/
def QTFileTrans_CopyRemoteFileToLocalFile (kBufSize : Int) (env : Env)
    (s0 : GState) (fs0 : Option (List Int)) : CopyResult :=
  let mySize := env.urlLen + 1
  if mySize = 0 then bailOut badComponentType s0 fs0 [] [] else
  if ¬ env.readerRefOk then bailOut badComponentType s0 fs0 [] [] else
  copyBodyFromDelete kBufSize env s0

/-- An environment whose setup succeeds step by step until
`OpenComponent(GetDataHandler(myReaderRef, URLDataHandlerSubType,
kDataHCanRead))` returns NULL: the URL is a 20-character string, both handle
allocations succeed, the destination did not exist (`FSpDelete` reports
`fnfErr`), `FSpCreate` and `QTNewAlias` succeed, and then the URL data
handler fails to open. -/
def envOpenReaderFails : Env :=
  { urlLen := 20
    readerRefOk := true
    writerRefOk := true
    deleteErr := fnfErr
    createErr := noErr
    aliasErr := noErr
    readerComponentOk := false
    writerComponentOk := false
    setReaderRefErr := noErr
    setWriterRefErr := noErr
    memErr := noErr
    openReadErr := noErr
    getFileSizeErr := noErr
    remoteFileSize := 10000
    openWriteErr := noErr }

/-- All setup steps of `QTFileTrans_CopyRemoteFileToLocalFile` succeed. -/
def setupOk (env : Env) : Prop :=
  env.urlLen + 1 ≠ 0 ∧ env.readerRefOk = true ∧ env.writerRefOk = true ∧
  env.createErr = noErr ∧ env.aliasErr = noErr ∧
  env.readerComponentOk = true ∧ env.writerComponentOk = true ∧
  env.setReaderRefErr = noErr ∧ env.setWriterRefErr = noErr ∧
  env.memErr = noErr ∧ env.openReadErr = noErr ∧
  env.getFileSizeErr = noErr ∧ env.openWriteErr = noErr

instance (env : Env) : Decidable (setupOk env) := by
  unfold setupOk
  infer_instance

/-- An environment in which every setup step succeeds: 20-character URL,
both handle allocations succeed, the destination did not exist, and every
component and data-handler call reports `noErr`; the remote file is 10000
bytes. -/
def envAllOk : Env :=
  { urlLen := 20
    readerRefOk := true
    writerRefOk := true
    deleteErr := fnfErr
    createErr := noErr
    aliasErr := noErr
    readerComponentOk := true
    writerComponentOk := true
    setReaderRefErr := noErr
    setWriterRefErr := noErr
    memErr := noErr
    openReadErr := noErr
    getFileSizeErr := noErr
    remoteFileSize := 10000
    openWriteErr := noErr }

/-- Unfolding lemma: when the bytes written so far (after adding this
completion's count) reach the total, the write-completion routine sets
`gDoneTransferring` and schedules nothing. -/
theorem writeProc_done (kBufSize : Int) (s : GState) (n e : Int)
    (h : s.gBytesToTransfer ≤ s.gBytesTransferred + n) :
    QTFileTrans_WriteDataCompletionProc kBufSize s n e =
      ({ s with gBytesTransferred := s.gBytesTransferred + n
                gDoneTransferring := true }, none) := by
  have hc : ¬ ({ s with gBytesTransferred := s.gBytesTransferred + n } : GState).gBytesTransferred <
      ({ s with gBytesTransferred := s.gBytesTransferred + n } : GState).gBytesToTransfer :=
    not_lt.mpr h
  simp only [QTFileTrans_WriteDataCompletionProc]
  rw [if_neg hc]

/-- Unfolding lemma: when data remains after this write completion, the
routine schedules a read of `min(kBufSize, remaining)` bytes at the new
offset, with that length as refCon. -/
theorem writeProc_more (kBufSize : Int) (s : GState) (n e : Int)
    (h : s.gBytesTransferred + n < s.gBytesToTransfer) :
    QTFileTrans_WriteDataCompletionProc kBufSize s n e =
      ({ s with gBytesTransferred := s.gBytesTransferred + n },
        some { offset := s.gBytesTransferred + n
               length := if s.gBytesToTransfer - (s.gBytesTransferred + n) > kBufSize
                         then kBufSize
                         else s.gBytesToTransfer - (s.gBytesTransferred + n)
               refCon := if s.gBytesToTransfer - (s.gBytesTransferred + n) > kBufSize
                         then kBufSize
                         else s.gBytesToTransfer - (s.gBytesTransferred + n) }) := by
  have hc : ({ s with gBytesTransferred := s.gBytesTransferred + n } : GState).gBytesTransferred <
      ({ s with gBytesTransferred := s.gBytesTransferred + n } : GState).gBytesToTransfer := h
  simp only [QTFileTrans_WriteDataCompletionProc]
  rw [if_pos hc]

/-- One unfolding step of `chunkLengths`: for positive remainder `r` the
chunk sequence starts with `min(C, r)`. -/
theorem chunkLengths_cons (kBufSize r : Int) (hk : 0 < kBufSize) (hr : 0 < r) :
    chunkLengths kBufSize r =
      (if r > kBufSize then kBufSize else r) ::
        chunkLengths kBufSize (r - (if r > kBufSize then kBufSize else r)) := by
  rcases lt_or_le kBufSize r with hlt | hle
  · rw [if_pos hlt]
    unfold chunkLengths
    have h1 : r / kBufSize = (r - kBufSize) / kBufSize + 1 := by
      have h2 := Int.add_mul_ediv_right (r - kBufSize) 1 (ne_of_gt hk)
      rw [one_mul] at h2
      rw [show r - kBufSize + kBufSize = r by ring] at h2
      omega
    have h2 : r % kBufSize = (r - kBufSize) % kBufSize := by
      conv_lhs => rw [show r = r - kBufSize + 1 * kBufSize by ring]
      rw [Int.add_mul_emod_self]
    have h3 : 0 ≤ (r - kBufSize) / kBufSize :=
      Int.ediv_nonneg (by omega) hk.le
    have h4 : (r / kBufSize).toNat = ((r - kBufSize) / kBufSize).toNat + 1 := by
      omega
    rw [h4, h2, List.replicate_succ, List.cons_append]
  · rw [if_neg (not_lt.mpr hle)]
    unfold chunkLengths
    rcases eq_or_lt_of_le hle with heq | hlt
    · subst heq
      rw [Int.ediv_self (ne_of_gt hr), Int.emod_self, sub_self]
      simp
    · rw [Int.ediv_eq_zero_of_lt hr.le hlt, Int.emod_eq_of_lt hr.le hlt, sub_self]
      simp [ne_of_gt hr]

/-- The chunk lengths sum to the remainder they cover. -/
theorem chunkLengths_sum (kBufSize r : Int) (hk : 0 < kBufSize) (hr : 0 ≤ r) :
    (chunkLengths kBufSize r).sum = r := by
  unfold chunkLengths
  rw [List.sum_append, List.sum_replicate, nsmul_eq_mul,
      Int.toNat_of_nonneg (Int.ediv_nonneg hr hk.le)]
  have h := Int.ediv_add_emod r kBufSize
  rcases eq_or_ne (r % kBufSize) 0 with hz | hz
  · rw [if_pos hz]
    simp only [List.sum_nil]
    nlinarith [h]
  · rw [if_neg hz]
    simp only [List.sum_cons, List.sum_nil, add_zero]
    nlinarith [h]

/-- `chunkLengths` of a zero remainder is empty. -/
theorem chunkLengths_zero (kBufSize : Int) : chunkLengths kBufSize 0 = [] := by
  unfold chunkLengths
  simp

/-- Master lemma for the faithful-completion run: starting from a write
completion reporting `n` bytes in a state with `gBytesTransferred + n ≤
gBytesToTransfer`, the run issues exactly the spec's chunk sequence for the
remaining bytes, and the final state has transferred everything and set
`gDoneTransferring`. -/
theorem runTransfer_run (kBufSize : Int) (hk : 0 < kBufSize) :
    ∀ (fuel : Nat) (s : GState) (n : Int),
      0 ≤ s.gBytesTransferred → 0 ≤ n →
      s.gBytesTransferred + n ≤ s.gBytesToTransfer →
      (s.gBytesToTransfer - s.gBytesTransferred - n).toNat + 1 ≤ fuel →
      (runTransfer kBufSize fuel s n).reads.map ReadReq.length =
          chunkLengths kBufSize (s.gBytesToTransfer - s.gBytesTransferred - n)
      ∧ (runTransfer kBufSize fuel s n).final.gBytesTransferred = s.gBytesToTransfer
      ∧ (runTransfer kBufSize fuel s n).final.gBytesToTransfer = s.gBytesToTransfer
      ∧ (runTransfer kBufSize fuel s n).final.gDoneTransferring = true := by
  intro fuel
  induction fuel with
  | zero =>
    intro s n _ _ _ hfuel
    omega
  | succ fuel ih =>
    intro s n ht hn hle hfuel
    rcases lt_or_le (s.gBytesTransferred + n) s.gBytesToTransfer with hlt | hge
    · simp only [runTransfer, writeProc_more kBufSize s n noErr hlt,
        QTFileTrans_ReadDataCompletionProc]
      set L := if s.gBytesToTransfer - (s.gBytesTransferred + n) > kBufSize
               then kBufSize
               else s.gBytesToTransfer - (s.gBytesTransferred + n) with hLdef
      have hL0 : 0 < L := by
        rw [hLdef]; split <;> omega
      have hLr : L ≤ s.gBytesToTransfer - (s.gBytesTransferred + n) := by
        rw [hLdef]; split <;> omega
      have hrec := ih { s with gBytesTransferred := s.gBytesTransferred + n } L
        (by simp; omega) hL0.le (by simp; omega) (by simp; omega)
      simp only [GState.gBytesToTransfer] at hrec ⊢
      refine ⟨?_, hrec.2.1, hrec.2.2.1, hrec.2.2.2⟩
      rw [List.map_cons, hrec.1]
      have hsub : s.gBytesToTransfer - s.gBytesTransferred - n =
          s.gBytesToTransfer - (s.gBytesTransferred + n) := by ring
      rw [hsub, chunkLengths_cons kBufSize
        (s.gBytesToTransfer - (s.gBytesTransferred + n)) hk (by omega), ← hLdef]
    · have heq : s.gBytesTransferred + n = s.gBytesToTransfer := le_antisymm hle hge
      simp only [runTransfer, writeProc_done kBufSize s n noErr hge]
      have h0 : s.gBytesToTransfer - s.gBytesTransferred - n = 0 := by omega
      refine ⟨?_, ?_, ?_, ?_⟩
      · rw [h0, chunkLengths_zero]
        rfl
      · exact heq
      · first | rfl | trivial
      · first | rfl | trivial

/-- Invariant lemma for the faithful-completion run: every state observed
after a completion callback keeps `gBytesTransferred` within `[0,
gBytesToTransfer]`, leaves `gBytesToTransfer` unchanged, and has
`gDoneTransferring` set exactly when the counter has reached the total;
moreover `gBytesTransferred` is non-decreasing along the trace and
`gDoneTransferring` never falls back from `true` to `false`. -/
theorem runTransfer_states (kBufSize : Int) (hk : 0 < kBufSize) :
    ∀ (fuel : Nat) (s : GState) (n : Int),
      0 ≤ s.gBytesTransferred → 0 ≤ n →
      s.gBytesTransferred + n ≤ s.gBytesToTransfer →
      s.gDoneTransferring = false →
      (∀ u ∈ (runTransfer kBufSize fuel s n).states,
          0 ≤ u.gBytesTransferred ∧ u.gBytesTransferred ≤ s.gBytesToTransfer ∧
          u.gBytesToTransfer = s.gBytesToTransfer ∧
          (u.gDoneTransferring = true ↔ s.gBytesToTransfer ≤ u.gBytesTransferred))
      ∧ List.Chain' (fun a b => a.gBytesTransferred ≤ b.gBytesTransferred)
          (s :: (runTransfer kBufSize fuel s n).states)
      ∧ List.Chain' (fun a b => a.gDoneTransferring = true → b.gDoneTransferring = true)
          (s :: (runTransfer kBufSize fuel s n).states) := by
  intro fuel
  induction fuel with
  | zero =>
    intro s n _ _ _ _
    refine ⟨?_, ?_, ?_⟩ <;> simp [runTransfer]
  | succ fuel ih =>
    intro s n ht hn hle hdone
    rcases lt_or_le (s.gBytesTransferred + n) s.gBytesToTransfer with hlt | hge
    · simp only [runTransfer, writeProc_more kBufSize s n noErr hlt,
        QTFileTrans_ReadDataCompletionProc]
      set L := if s.gBytesToTransfer - (s.gBytesTransferred + n) > kBufSize
               then kBufSize
               else s.gBytesToTransfer - (s.gBytesTransferred + n) with hLdef
      have hL0 : 0 < L := by
        rw [hLdef]; split <;> omega
      have hLr : L ≤ s.gBytesToTransfer - (s.gBytesTransferred + n) := by
        rw [hLdef]; split <;> omega
      have hrec := ih { s with gBytesTransferred := s.gBytesTransferred + n } L
        (by simp; omega) hL0.le (by simp; omega) (by simp [hdone])
      refine ⟨?_, ?_, ?_⟩
      · intro u hu
        simp only [List.mem_cons] at hu
        rcases hu with rfl | rfl | hu
        · simp [hdone]
          omega
        · simp [hdone]
          omega
        · exact (hrec.1 u hu)
      · simp only [List.chain'_cons]
        refine ⟨by omega, by simp, ?_⟩
        exact hrec.2.1
      · simp only [List.chain'_cons]
        refine ⟨by simp [hdone], by simp, ?_⟩
        exact hrec.2.2
    · have heq : s.gBytesTransferred + n = s.gBytesToTransfer := le_antisymm hle hge
      simp only [runTransfer, writeProc_done kBufSize s n noErr hge]
      refine ⟨?_, ?_, ?_⟩
      · intro u hu
        simp only [List.mem_cons, List.not_mem_nil, or_false] at hu
        subst hu
        simp
        omega
      · simp [List.chain'_cons]
        omega
      · simp [List.chain'_cons]

/-- C1: assuming each completion reports the requested count, a transfer of
`S` bytes through a buffer of capacity `C` issues exactly the read lengths
`C, C, ..., C, S mod C` (the final partial chunk omitted when `C` divides
`S`), and those lengths sum to `S`. -/
theorem chunking_C1 (S C : Int) (fuel : Nat) (hS : 0 ≤ S) (hC : 0 < C)
    (hfuel : S.toNat + 1 ≤ fuel) :
    (runTransfer C fuel (startedState S) 0).reads.map ReadReq.length =
        chunkLengths C S
    ∧ ((runTransfer C fuel (startedState S) 0).reads.map ReadReq.length).sum = S := by
  have h := runTransfer_run C hC fuel (startedState S) 0
    (by simp [startedState]) le_rfl (by simp [startedState, hS])
    (by simp [startedState]; omega)
  have h1 : (runTransfer C fuel (startedState S) 0).reads.map ReadReq.length =
      chunkLengths C S := by
    have := h.1
    simpa [startedState] using this
  exact ⟨h1, by rw [h1]; exact chunkLengths_sum C S hC hS⟩

/-- Witness for C1: the spec's sample scenario, a 10000-byte remote file
through a 4096-byte buffer: the issued read lengths are 4096, 4096, 1808 and
sum to 10000. -/
theorem chunking_C1_witness :
    0 ≤ (10000 : Int) ∧ 0 < (4096 : Int) ∧ (10000 : Int).toNat + 1 ≤ 10001
    ∧ (runTransfer 4096 10001 (startedState 10000) 0).reads.map ReadReq.length =
        [4096, 4096, 1808]
    ∧ ((runTransfer 4096 10001 (startedState 10000) 0).reads.map ReadReq.length).sum
        = 10000 :=
  ⟨by decide, by decide, by decide,
   ((chunking_C1 10000 4096 10001 (by decide) (by decide) (by decide)).1).trans
     (by decide),
   (chunking_C1 10000 4096 10001 (by decide) (by decide) (by decide)).2⟩

/-- C2 (failing-input evaluation): when every step up to it succeeds but
`OpenComponent(GetDataHandler(...))` for the URL data handler returns NULL,
`QTFileTrans_CopyRemoteFileToLocalFile` jumps to `bail` with `myErr` still
`noErr` (left by the successful `QTNewAlias`), so it skips
`QTFileTrans_CloseDownHandlers`, releases nothing, schedules no I/O — and
returns `noErr`, reporting success to the caller. -/
theorem openComponentFailure_C2 :
    (QTFileTrans_CopyRemoteFileToLocalFile kDataBufferSize envOpenReaderFails
        initGlobals none).err = noErr
    ∧ (QTFileTrans_CopyRemoteFileToLocalFile kDataBufferSize envOpenReaderFails
        initGlobals none).teardownRan = false
    ∧ (QTFileTrans_CopyRemoteFileToLocalFile kDataBufferSize envOpenReaderFails
        initGlobals none).releases = emptyReleases
    ∧ (QTFileTrans_CopyRemoteFileToLocalFile kDataBufferSize envOpenReaderFails
        initGlobals none).schedReads = [] := by
  decide

/-- C3 (failing-input evaluation): calling `QTFileTrans_CloseDownHandlers`
twice in a row from a post-setup state releases the data buffer and both
completion routine descriptors twice — the second call repeats
`DisposePtr(gDataBuffer)` and both `DisposeDataHCompletionUPP` calls because
those pointers are never set to NULL — while the two endpoint handles are
closed only once. -/
theorem doubleRelease_C3 :
    (QTFileTrans_CloseDownHandlers (startedState 10000)).2.bufferDisposes +
      (QTFileTrans_CloseDownHandlers
        (QTFileTrans_CloseDownHandlers (startedState 10000)).1).2.bufferDisposes = 2
    ∧ (QTFileTrans_CloseDownHandlers (startedState 10000)).2.readUPPDisposes +
      (QTFileTrans_CloseDownHandlers
        (QTFileTrans_CloseDownHandlers (startedState 10000)).1).2.readUPPDisposes = 2
    ∧ (QTFileTrans_CloseDownHandlers (startedState 10000)).2.writeUPPDisposes +
      (QTFileTrans_CloseDownHandlers
        (QTFileTrans_CloseDownHandlers (startedState 10000)).1).2.writeUPPDisposes = 2
    ∧ (QTFileTrans_CloseDownHandlers (startedState 10000)).2.readerCloses +
      (QTFileTrans_CloseDownHandlers
        (QTFileTrans_CloseDownHandlers (startedState 10000)).1).2.readerCloses = 1
    ∧ (QTFileTrans_CloseDownHandlers (startedState 10000)).2.writerCloses +
      (QTFileTrans_CloseDownHandlers
        (QTFileTrans_CloseDownHandlers (startedState 10000)).1).2.writerCloses = 1 := by
  decide

/-- C4: across the full sequence of completion callbacks of one transfer,
`gBytesTransferred` never decreases (starting from the reset value 0),
stays non-negative, and never exceeds `gBytesToTransfer`. -/
theorem monotonic_C4 (S C : Int) (fuel : Nat) (hS : 0 ≤ S) (hC : 0 < C) :
    List.Chain' (fun a b => a.gBytesTransferred ≤ b.gBytesTransferred)
      (startedState S :: (runTransfer C fuel (startedState S) 0).states)
    ∧ ∀ u ∈ (runTransfer C fuel (startedState S) 0).states,
        0 ≤ u.gBytesTransferred ∧ u.gBytesTransferred ≤ S := by
  have h := runTransfer_states C hC fuel (startedState S) 0
    (by simp [startedState]) le_rfl (by simp [startedState, hS])
    (by simp [startedState])
  exact ⟨h.2.1, fun u hu => ⟨(h.1 u hu).1, (h.1 u hu).2.1⟩⟩

/-- Witness for C4 at the spec's sample scenario. -/
theorem monotonic_C4_witness :
    0 ≤ (10000 : Int) ∧ 0 < (4096 : Int)
    ∧ (List.Chain' (fun a b => a.gBytesTransferred ≤ b.gBytesTransferred)
        (startedState 10000 :: (runTransfer 4096 7 (startedState 10000) 0).states)
      ∧ ∀ u ∈ (runTransfer 4096 7 (startedState 10000) 0).states,
          0 ≤ u.gBytesTransferred ∧ u.gBytesTransferred ≤ 10000) :=
  ⟨by decide, by decide, monotonic_C4 10000 4096 7 (by decide) (by decide)⟩

/-- C5: with `gBytesToTransfer = 0`, the bootstrap call
`QTFileTrans_WriteDataCompletionProc(gDataBuffer, 0, noErr)` immediately
sets `gDoneTransferring` and schedules nothing, so the run issues no read
and no write. -/
theorem zeroLength_C5 (C e : Int) (fuel : Nat) :
    (QTFileTrans_WriteDataCompletionProc C (startedState 0) 0 e).1.gDoneTransferring
        = true
    ∧ (QTFileTrans_WriteDataCompletionProc C (startedState 0) 0 e).2 = none
    ∧ (runTransfer C (fuel + 1) (startedState 0) 0).reads = []
    ∧ (runTransfer C (fuel + 1) (startedState 0) 0).writes = []
    ∧ (runTransfer C (fuel + 1) (startedState 0) 0).final.gDoneTransferring = true := by
  have hw := writeProc_done C (startedState 0) 0 e (by simp [startedState])
  have hw0 := writeProc_done C (startedState 0) 0 noErr (by simp [startedState])
  refine ⟨by rw [hw], by rw [hw], ?_, ?_, ?_⟩ <;>
    simp [runTransfer, hw0]

/-- C6: the error parameter of either completion routine has no influence on
the resulting state or the scheduled operation (`#pragma unused(theErr)` in
both routines). -/
theorem errIgnored_C6 (C : Int) (s : GState) (n e1 e2 : Int) :
    QTFileTrans_ReadDataCompletionProc s n e1
        = QTFileTrans_ReadDataCompletionProc s n e2
    ∧ QTFileTrans_WriteDataCompletionProc C s n e1
        = QTFileTrans_WriteDataCompletionProc C s n e2 :=
  ⟨rfl, rfl⟩

/-- C7: within one transfer, `gDoneTransferring` is false at every observed
state with `gBytesTransferred < gBytesToTransfer`, holds exactly when the
counter has reached the total, never reverts from true to false along the
callback sequence, and with enough fuel the final write completion leaves it
true with `gBytesTransferred = gBytesToTransfer`. -/
theorem doneFlag_C7 (S C : Int) (fuel : Nat) (hS : 0 ≤ S) (hC : 0 < C)
    (hfuel : S.toNat + 1 ≤ fuel) :
    (∀ u ∈ (runTransfer C fuel (startedState S) 0).states,
        (u.gBytesTransferred < S → u.gDoneTransferring = false)
        ∧ (u.gDoneTransferring = true ↔ S ≤ u.gBytesTransferred))
    ∧ List.Chain' (fun a b => a.gDoneTransferring = true → b.gDoneTransferring = true)
        (startedState S :: (runTransfer C fuel (startedState S) 0).states)
    ∧ (runTransfer C fuel (startedState S) 0).final.gDoneTransferring = true
    ∧ (runTransfer C fuel (startedState S) 0).final.gBytesTransferred = S := by
  have hs := runTransfer_states C hC fuel (startedState S) 0
    (by simp [startedState]) le_rfl (by simp [startedState, hS])
    (by simp [startedState])
  have hr := runTransfer_run C hC fuel (startedState S) 0
    (by simp [startedState]) le_rfl (by simp [startedState, hS])
    (by simp [startedState]; omega)
  refine ⟨fun u hu => ?_, hs.2.2, hr.2.2.2, hr.2.1⟩
  have h := hs.1 u hu
  simp only [startedState] at h
  refine ⟨fun hlt => ?_, h.2.2.2⟩
  cases hdone : u.gDoneTransferring
  · rfl
  · exact absurd (h.2.2.2.mp hdone) (by omega)

/-- Witness for C7 at the spec's sample scenario. -/
theorem doneFlag_C7_witness :
    0 ≤ (10000 : Int) ∧ 0 < (4096 : Int) ∧ (10000 : Int).toNat + 1 ≤ 10001
    ∧ ((∀ u ∈ (runTransfer 4096 10001 (startedState 10000) 0).states,
          (u.gBytesTransferred < 10000 → u.gDoneTransferring = false)
          ∧ (u.gDoneTransferring = true ↔ 10000 ≤ u.gBytesTransferred))
      ∧ List.Chain' (fun a b => a.gDoneTransferring = true → b.gDoneTransferring = true)
          (startedState 10000 :: (runTransfer 4096 10001 (startedState 10000) 0).states)
      ∧ (runTransfer 4096 10001 (startedState 10000) 0).final.gDoneTransferring = true
      ∧ (runTransfer 4096 10001 (startedState 10000) 0).final.gBytesTransferred = 10000) :=
  ⟨by decide, by decide, by decide,
   doneFlag_C7 10000 4096 10001 (by decide) (by decide) (by decide)⟩

/-- C9: the read-completion routine passes its refCon — the requested chunk
length carried through the tag — as both the length and the refCon of the
`DataHWrite` it schedules, at offset `gBytesTransferred`, without consulting
how many bytes the endpoint actually delivered (the callback has no such
parameter); the subsequent write completion then adds exactly that tag to
`gBytesTransferred`. -/
theorem tagCarried_C9 (C : Int) (s : GState) (tag e e2 : Int) :
    (QTFileTrans_ReadDataCompletionProc s tag e).1 = s
    ∧ (QTFileTrans_ReadDataCompletionProc s tag e).2.length = tag
    ∧ (QTFileTrans_ReadDataCompletionProc s tag e).2.refCon = tag
    ∧ (QTFileTrans_ReadDataCompletionProc s tag e).2.offset = s.gBytesTransferred
    ∧ (QTFileTrans_WriteDataCompletionProc C
        (QTFileTrans_ReadDataCompletionProc s tag e).1
        (QTFileTrans_ReadDataCompletionProc s tag e).2.refCon
        e2).1.gBytesTransferred = s.gBytesTransferred + tag := by
  refine ⟨rfl, rfl, rfl, rfl, ?_⟩
  simp only [QTFileTrans_WriteDataCompletionProc, QTFileTrans_ReadDataCompletionProc]
  split <;> rfl

/-- C10: after `QTFileTrans_CloseDownHandlers` returns, both endpoint
handles are NULL — so a subsequent driving-loop pass issues no `DataHTask`
call — while `gDataBuffer` and the two completion routine descriptors keep
their previous pointer values even though each non-NULL one was just
released. -/
theorem closeState_C10 (s : GState) :
    (QTFileTrans_CloseDownHandlers s).1.gDataReader = false
    ∧ (QTFileTrans_CloseDownHandlers s).1.gDataWriter = false
    ∧ (QTFileTrans_CloseDownHandlers s).1.gDataBuffer = s.gDataBuffer
    ∧ (QTFileTrans_CloseDownHandlers s).1.gReadDataHCompletionUPP
        = s.gReadDataHCompletionUPP
    ∧ (QTFileTrans_CloseDownHandlers s).1.gWriteDataHCompletionUPP
        = s.gWriteDataHCompletionUPP
    ∧ (QTFileTrans_CloseDownHandlers s).2.bufferDisposes
        = (if s.gDataBuffer then 1 else 0)
    ∧ (QTFileTrans_CloseDownHandlers s).2.readUPPDisposes
        = (if s.gReadDataHCompletionUPP then 1 else 0)
    ∧ (QTFileTrans_CloseDownHandlers s).2.writeUPPDisposes
        = (if s.gWriteDataHCompletionUPP then 1 else 0)
    ∧ drivingStepTasks (QTFileTrans_CloseDownHandlers s).1 = 0 := by
  rcases s with ⟨b, r, w, ru, wu, S, t, d⟩
  cases r <;> cases w <;>
    simp [QTFileTrans_CloseDownHandlers, drivingStepTasks]

/-- C8: `QTFileTrans_CopyRemoteFileToLocalFile` ignores `FSpDelete`'s status
entirely (so a file-not-found report is treated as success), its behaviour
is independent of the destination file's prior content once execution
reaches the delete, and on a fully successful setup the trace contains the
delete, then the create, then the open-for-write, leaving the destination a
freshly created empty file. -/
theorem destFile_C8 (kBufSize : Int) (env : Env) (s0 : GState)
    (fs0 fs0' : Option (List Int)) (e : Int)
    (hurl : env.urlLen + 1 ≠ 0) (hrd : env.readerRefOk = true) :
    QTFileTrans_CopyRemoteFileToLocalFile kBufSize { env with deleteErr := e } s0 fs0
        = QTFileTrans_CopyRemoteFileToLocalFile kBufSize env s0 fs0
    ∧ QTFileTrans_CopyRemoteFileToLocalFile kBufSize env s0 fs0
        = QTFileTrans_CopyRemoteFileToLocalFile kBufSize env s0 fs0'
    ∧ (setupOk env →
        List.Sublist
          [SetupEvent.fspDelete, SetupEvent.fspCreate, SetupEvent.dataHOpenForWrite]
          (QTFileTrans_CopyRemoteFileToLocalFile kBufSize env s0 fs0).events
        ∧ (QTFileTrans_CopyRemoteFileToLocalFile kBufSize env s0 fs0).destFile
            = some []) := by
  have hmain : QTFileTrans_CopyRemoteFileToLocalFile kBufSize env s0 fs0
      = copyBodyFromDelete kBufSize env s0 := by
    simp only [QTFileTrans_CopyRemoteFileToLocalFile]
    rw [if_neg hurl, if_neg (show ¬ ¬ env.readerRefOk = true by simp [hrd])]
  refine ⟨rfl, ?_, ?_⟩
  · rw [hmain]
    simp only [QTFileTrans_CopyRemoteFileToLocalFile]
    rw [if_neg hurl, if_neg (show ¬ ¬ env.readerRefOk = true by simp [hrd])]
  · intro hok
    obtain ⟨h1, h2, h3, h4, h5, h6, h7, h8, h9, h10, h11, h12, h13⟩ := hok
    rw [hmain]
    simp only [copyBodyFromDelete, h2, h3, h4, h5, h6, h7, h8,
      h9, h10, h11, h12, h13]
    simp only [not_true, if_false, ite_not, ne_eq, not_false_iff, if_true,
      ite_self, not_not]
    simp only [bailOut, ne_eq, not_true, not_false_iff, ite_true, ite_false]
    split <;> refine ⟨?_, by dsimp only⟩ <;> dsimp only <;>
      first
        | decide
        | exact List.Sublist.trans (by decide) (List.sublist_append_left _ _)

/-- Witness for C8: a concrete all-success environment, comparing a
pre-existing three-byte destination file against an absent one, and an
arbitrary non-`fnfErr` delete status. -/
theorem destFile_C8_witness :
    envAllOk.urlLen + 1 ≠ 0 ∧ envAllOk.readerRefOk = true
    ∧ (QTFileTrans_CopyRemoteFileToLocalFile kDataBufferSize
          { envAllOk with deleteErr := -50 } initGlobals (some [7, 7, 7])
        = QTFileTrans_CopyRemoteFileToLocalFile kDataBufferSize envAllOk
            initGlobals (some [7, 7, 7])
      ∧ QTFileTrans_CopyRemoteFileToLocalFile kDataBufferSize envAllOk
            initGlobals (some [7, 7, 7])
        = QTFileTrans_CopyRemoteFileToLocalFile kDataBufferSize envAllOk
            initGlobals none
      ∧ (setupOk envAllOk →
          List.Sublist
            [SetupEvent.fspDelete, SetupEvent.fspCreate, SetupEvent.dataHOpenForWrite]
            (QTFileTrans_CopyRemoteFileToLocalFile kDataBufferSize envAllOk
                initGlobals (some [7, 7, 7])).events
          ∧ (QTFileTrans_CopyRemoteFileToLocalFile kDataBufferSize envAllOk
                initGlobals (some [7, 7, 7])).destFile = some [])) :=
  ⟨by decide, by decide,
   destFile_C8 kDataBufferSize envAllOk initGlobals (some [7, 7, 7]) none (-50)
     (by decide) (by decide)⟩

end QTFileTransfer
